import Mathlib

/-!
Shallow embedding of the temperature anomaly-detection core of `app.py`.

This file embeds, in Lean, the statistical/classification core of the
Streamlit temperature-analysis app:

* `calculate_moving_average` (app.py lines 27-29): `series.rolling(window).mean()`,
  including the pandas window validation (`rolling` raises
  `ValueError("window must be an integer 0 or greater")` only for a
  negative window; `window = 0` is accepted and yields an all-NaN output).
* `calculate_anomalies` (app.py lines 31-44): rolling mean and rolling
  sample standard deviation (pandas `ddof = 1`), bounds `mean ± 2·std`,
  and the anomalous subset `data[(t > upper) | (t < lower)]`.
* the seasonal statistics table (app.py line 137):
  `groupby('season')['temperature'].agg(['mean','std','min','max']).round(2)`,
  where `.round(2)` is numpy round-half-to-even on each aggregate.
* the live-reading classification (app.py lines 291-293):
  `stats.loc[current_season]` (a `KeyError`, i.e. a `LookupError`, when the
  season is absent) and the ±2σ verdict computed from that (rounded) row,
  wrapped in the caller's `try/except` (lines 274-303).
* the batch paths `analyze_data_parallel` (lines 78-84) and
  `analyze_data_sequential` (lines 86-88).

Conventions of the embedding: Python `float64` values are modelled as real
numbers; a pandas `NaN` cell of a derived series is modelled as `none` in a
`List (Option ℝ)` (pandas comparisons against `NaN` are `False`, modelled by
`gtOpt`/`ltOpt` below); a raised exception is modelled as `Except.error`.
Rolling-window semantics follow pandas with the default
`min_periods = window`: the mean at index `i` is defined iff
`1 ≤ w ∧ w ≤ i + 1` (for `w = 0` every window is empty, so every output is
NaN), and the sample standard deviation additionally needs at least
`ddof + 1 = 2` points in the window, so it is defined iff `2 ≤ w ∧ w ≤ i + 1`.
-/

noncomputable section

namespace TempApp

/-- Bool-valued truth of a proposition, used to model pandas boolean masks
over real-number comparisons. -/
def pbool (p : Prop) : Bool := @decide p (Classical.propDecidable p)

@[simp]
theorem pbool_iff (p : Prop) : pbool p = true ↔ p := by
  simp [pbool]

/-- Arithmetic mean of a list of reals (pandas `mean`, NaN-free inputs). -/
def mean (l : List ℝ) : ℝ := l.sum / (l.length : ℝ)

/-- Bessel-corrected sample variance (pandas `var`/`std` with `ddof = 1`):
sum of squared deviations from the mean, divided by `length - 1`. -/
def sampleVar (l : List ℝ) : ℝ :=
  ((l.map fun x => (x - mean l) ^ 2).sum) / ((l.length : ℝ) - 1)

/-- Sample standard deviation (pandas `std`, `ddof = 1`). -/
def sampleStd (l : List ℝ) : ℝ := Real.sqrt (sampleVar l)

/-- The trailing window of `w` samples ending at index `i` (inclusive):
`s[i-w+1 .. i]`. -/
def windowSlice (s : List ℝ) (w i : Nat) : List ℝ := (s.drop (i + 1 - w)).take w

/-- `series.rolling(window = w).mean()` with the pandas default
`min_periods = w`: entry `i` is NaN (`none`) unless the trailing window is
full, i.e. unless `1 ≤ w ∧ w ≤ i + 1`. -/
def rollingMean (s : List ℝ) (w : Nat) : List (Option ℝ) :=
  (List.range s.length).map fun i =>
    if 1 ≤ w ∧ w ≤ i + 1 then some (mean (windowSlice s w i)) else none

/-- `series.rolling(window = w).std()` (`ddof = 1`): entry `i` is NaN
(`none`) unless the window is full AND holds more than `ddof = 1` samples,
i.e. unless `2 ≤ w ∧ w ≤ i + 1` (so a window of 1 is NaN everywhere). -/
def rollingStd (s : List ℝ) (w : Nat) : List (Option ℝ) :=
  (List.range s.length).map fun i =>
    if 2 ≤ w ∧ w ≤ i + 1 then some (sampleStd (windowSlice s w i)) else none

/-- app.py lines 27-29: `data['temperature'].rolling(window=window).mean()`.
The `Int` window models the Python `int` argument; pandas validates it and
raises `ValueError` exactly when it is negative. -/
def calculate_moving_average (data : List ℝ) (window : Int) :
    Except String (List (Option ℝ)) :=
  if window < 0 then Except.error "window must be an integer 0 or greater"
  else Except.ok (rollingMean data window.toNat)

/-- app.py line 36: `upper_bound = rolling_mean + 2 * rolling_std`
(elementwise; NaN wherever either operand is NaN). -/
def upper_bound (data : List ℝ) (w : Nat) : List (Option ℝ) :=
  List.zipWith (fun m s =>
    match m, s with
    | some m2, some s2 => some (m2 + 2 * s2)
    | _, _ => none) (rollingMean data w) (rollingStd data w)

/-- app.py line 37: `lower_bound = rolling_mean - 2 * rolling_std`. -/
def lower_bound (data : List ℝ) (w : Nat) : List (Option ℝ) :=
  List.zipWith (fun m s =>
    match m, s with
    | some m2, some s2 => some (m2 - 2 * s2)
    | _, _ => none) (rollingMean data w) (rollingStd data w)

/-- Pandas `t > bound` where `bound` may be NaN: `False` against NaN. -/
def gtOpt (t : ℝ) : Option ℝ → Prop
  | some u => t > u
  | none => False

/-- Pandas `t < bound` where `bound` may be NaN: `False` against NaN. -/
def ltOpt (t : ℝ) : Option ℝ → Prop
  | some l => t < l
  | none => False

/-- app.py lines 31-44 (`calculate_anomalies`): returns
`(anomalies, rolling_mean, upper_bound, lower_bound)`.  The anomalies are
the rows of the input whose temperature strictly exceeds the upper bound or
strictly falls below the lower bound at their own index; they keep their
original index (modelled as `Nat × ℝ` pairs).  The window is a `Nat` here:
the Python call sites pass a non-negative `int` (default 30), and the pandas
validation inside `rolling` only rejects negative windows — see
`calculate_moving_average` for the `Int`-facing wrapper. -/
def calculate_anomalies (data : List ℝ) (w : Nat) :
    List (Nat × ℝ) × List (Option ℝ) × List (Option ℝ) × List (Option ℝ) :=
  let rolling_mean := rollingMean data w
  let ub := upper_bound data w
  let lb := lower_bound data w
  let anomalies := data.enum.filter fun p =>
    pbool (gtOpt p.2 (ub.getD p.1 none) ∨ ltOpt p.2 (lb.getD p.1 none))
  (anomalies, rolling_mean, ub, lb)

/-- The four seasons used in the data's `season` column. -/
inductive Season
  | winter
  | spring
  | summer
  | autumn
deriving DecidableEq, Repr

/-- Smallest element of a list of reals (pandas `min` aggregate;
the app only applies it to non-empty groups). -/
def listMin : List ℝ → ℝ
  | [] => 0
  | x :: xs => xs.foldl min x

/-- Largest element of a list of reals (pandas `max` aggregate). -/
def listMax : List ℝ → ℝ
  | [] => 0
  | x :: xs => xs.foldl max x

/-- One row of the seasonal statistics table. -/
structure SeasonStats where
  mean : ℝ
  std : ℝ
  min : ℝ
  max : ℝ

/-- The temperatures of one city's rows carrying a given season
(`groupby('season')` group membership). -/
def seasonTemps (data : List (Season × ℝ)) (s : Season) : List ℝ :=
  (data.filter fun p => p.1 == s).map Prod.snd

/-- `agg(['mean','std','min','max'])` on one season group. -/
def aggStats (l : List ℝ) : SeasonStats :=
  { mean := mean l, std := sampleStd l, min := listMin l, max := listMax l }

/-- The unrounded seasonal statistics: `groupby('season')` only produces
rows for seasons that occur in the data, so an absent season has no row. -/
def statsRaw (data : List (Season × ℝ)) (s : Season) : Option SeasonStats :=
  if (seasonTemps data s).isEmpty then none
  else some (aggStats (seasonTemps data s))

/-- numpy/pandas round-half-to-even of a real to the nearest integer. -/
def roundHalfEven (x : ℝ) : ℤ :=
  if x - ⌊x⌋ < 1 / 2 then ⌊x⌋
  else if 1 / 2 < x - ⌊x⌋ then ⌊x⌋ + 1
  else if Even ⌊x⌋ then ⌊x⌋ else ⌊x⌋ + 1

/-- pandas `.round(2)`: round to 2 decimal places, half to even. -/
def round2 (x : ℝ) : ℝ := (roundHalfEven (x * 100) : ℝ) / 100

/-- `.round(2)` applied to a whole row of the statistics table. -/
def roundStats (st : SeasonStats) : SeasonStats :=
  { mean := round2 st.mean, std := round2 st.std,
    min := round2 st.min, max := round2 st.max }

/-- app.py line 137: the displayed statistics table
`city_data.groupby('season')['temperature'].agg(['mean','std','min','max']).round(2)`.
This is the `stats` variable that lines 291-293 later index into. -/
def stats (data : List (Season × ℝ)) (s : Season) : Option SeasonStats :=
  (statsRaw data s).map roundStats

/-- The ±2σ live verdict formula of app.py lines 292-293:
`temp > mean + 2*std or temp < mean - 2*std` for one statistics row. -/
def is_anomaly (st : SeasonStats) (t : ℝ) : Prop :=
  t > st.mean + 2 * st.std ∨ t < st.mean - 2 * st.std

/-- app.py lines 291-293: `stats.loc[current_season]` (raising `KeyError`,
a `LookupError` subclass, when the season has no row) followed by the ±2σ
verdict against that (rounded) row. -/
def classifyLive (data : List (Season × ℝ)) (t : ℝ) (s : Season) :
    Except String Prop :=
  match stats data s with
  | none => Except.error "KeyError"
  | some st => Except.ok (is_anomaly st t)

/-- Outcome of the live-reading section as seen by the user: either a
verdict was rendered, or the `except` branch showed an error message. -/
inductive LiveOutcome
  | verdict (isAnom : Prop)
  | errorShown (msg : String)

/-- app.py lines 274-303: the caller wraps the classification in
`try/except Exception`, so a lookup failure becomes an error message
(`st.error`) instead of a crash; the function is total. -/
def liveSection (data : List (Season × ℝ)) (t : ℝ) (s : Season) : LiveOutcome :=
  match classifyLive data t s with
  | Except.error e => LiveOutcome.errorShown e
  | Except.ok p => LiveOutcome.verdict p

/-- `data.groupby('city')` on rows `(city, temperature)`: one group per
distinct city, each carrying that city's temperatures in row order.
(pandas orders groups by sorted key; both batch paths below consume the
same grouping, so the key order is immaterial to their equivalence.) -/
def groupByCity (rows : List (String × ℝ)) : List (String × List ℝ) :=
  ((rows.map Prod.fst).dedup).map fun c =>
    (c, (rows.filter fun r => r.1 == c).map Prod.snd)

/-- app.py lines 78-84 (`analyze_data_parallel`): `executor.map` applies
`calculate_anomalies` to the groups in order (`ProcessPoolExecutor.map`
yields results in input order), and the dict pairs `groups.groups.keys()`
with those results positionally. -/
def analyze_data_parallel (rows : List (String × ℝ)) :
    List (String × (List (Nat × ℝ) × List (Option ℝ) × List (Option ℝ) × List (Option ℝ))) :=
  let groups := groupByCity rows
  (groups.map Prod.fst).zip
    ((groups.map Prod.snd).map fun g => calculate_anomalies g 30)

/-- app.py lines 86-88 (`analyze_data_sequential`):
`data.groupby('city').apply(calculate_anomalies).to_dict()`. -/
def analyze_data_sequential (rows : List (String × ℝ)) :
    List (String × (List (Nat × ℝ) × List (Option ℝ) × List (Option ℝ) × List (Option ℝ))) :=
  (groupByCity rows).map fun p => (p.1, calculate_anomalies p.2 30)

/-- The spec's trailing slice `S[i-W+1 .. i]` written by explicit indexing,
used to state the rolling contract independently of `windowSlice`. -/
def sliceSpec (S : List ℝ) (W i : Nat) : List ℝ :=
  (List.range W).map fun j => S.getD (i + 1 - W + j) 0

/-- The spec's 35-point example series: indices 0-33 at 10.0 °C and
index 34 at 50.0 °C. -/
def exampleSeries : List ℝ := List.replicate 34 10 ++ [50]

/-- City data on which display rounding flips the live verdict: five winter
readings with mean 0 and sample standard deviation exactly 0.004. -/
def c1Data : List (Season × ℝ) :=
  [(Season.winter, -(4 / 1000)), (Season.winter, -(4 / 1000)),
   (Season.winter, 0), (Season.winter, 4 / 1000), (Season.winter, 4 / 1000)]

/- ### Helper lemmas about the rolling statistics -/

theorem length_rollingMean (S : List ℝ) (w : Nat) :
    (rollingMean S w).length = S.length := by
  simp [rollingMean]

theorem length_rollingStd (S : List ℝ) (w : Nat) :
    (rollingStd S w).length = S.length := by
  simp [rollingStd]

theorem rollingMean_getElem (S : List ℝ) (w i : Nat)
    (hl : i < (rollingMean S w).length) :
    (rollingMean S w)[i] =
      if 1 ≤ w ∧ w ≤ i + 1 then some (mean (windowSlice S w i)) else none := by
  simp [rollingMean]

theorem rollingStd_getElem (S : List ℝ) (w i : Nat)
    (hl : i < (rollingStd S w).length) :
    (rollingStd S w)[i] =
      if 2 ≤ w ∧ w ≤ i + 1 then some (sampleStd (windowSlice S w i)) else none := by
  simp [rollingStd]

theorem rollingMean_getD (S : List ℝ) (w i : Nat) (h : i < S.length) :
    (rollingMean S w).getD i none =
      if 1 ≤ w ∧ w ≤ i + 1 then some (mean (windowSlice S w i)) else none := by
  have hl : i < (rollingMean S w).length := by rwa [length_rollingMean]
  rw [List.getD_eq_getElem _ _ hl, rollingMean_getElem S w i hl]

theorem rollingStd_getD (S : List ℝ) (w i : Nat) (h : i < S.length) :
    (rollingStd S w).getD i none =
      if 2 ≤ w ∧ w ≤ i + 1 then some (sampleStd (windowSlice S w i)) else none := by
  have hl : i < (rollingStd S w).length := by rwa [length_rollingStd]
  rw [List.getD_eq_getElem _ _ hl, rollingStd_getElem S w i hl]

theorem length_upper_bound (S : List ℝ) (w : Nat) :
    (upper_bound S w).length = S.length := by
  simp [upper_bound, List.length_zipWith, length_rollingMean, length_rollingStd]

theorem length_lower_bound (S : List ℝ) (w : Nat) :
    (lower_bound S w).length = S.length := by
  simp [lower_bound, List.length_zipWith, length_rollingMean, length_rollingStd]

theorem upper_bound_getD (S : List ℝ) (w i : Nat) (h : i < S.length) :
    (upper_bound S w).getD i none =
      if 2 ≤ w ∧ w ≤ i + 1 then
        some (mean (windowSlice S w i) + 2 * sampleStd (windowSlice S w i))
      else none := by
  have hl : i < (upper_bound S w).length := by rwa [length_upper_bound]
  have hm : i < (rollingMean S w).length := by rwa [length_rollingMean]
  have hs : i < (rollingStd S w).length := by rwa [length_rollingStd]
  rw [List.getD_eq_getElem _ _ hl]
  unfold upper_bound
  rw [List.getElem_zipWith, rollingMean_getElem S w i hm, rollingStd_getElem S w i hs]
  by_cases h2 : 2 ≤ w ∧ w ≤ i + 1
  · have h1 : 1 ≤ w ∧ w ≤ i + 1 := ⟨by omega, h2.2⟩
    simp [h1, h2]
  · by_cases h1 : 1 ≤ w ∧ w ≤ i + 1
    · have h2' : ¬ 2 ≤ w := fun hc => h2 ⟨hc, h1.2⟩
      simp [h1, h2']
    · simp [h1, h2]

theorem lower_bound_getD (S : List ℝ) (w i : Nat) (h : i < S.length) :
    (lower_bound S w).getD i none =
      if 2 ≤ w ∧ w ≤ i + 1 then
        some (mean (windowSlice S w i) - 2 * sampleStd (windowSlice S w i))
      else none := by
  have hl : i < (lower_bound S w).length := by rwa [length_lower_bound]
  have hm : i < (rollingMean S w).length := by rwa [length_rollingMean]
  have hs : i < (rollingStd S w).length := by rwa [length_rollingStd]
  rw [List.getD_eq_getElem _ _ hl]
  unfold lower_bound
  rw [List.getElem_zipWith, rollingMean_getElem S w i hm, rollingStd_getElem S w i hs]
  by_cases h2 : 2 ≤ w ∧ w ≤ i + 1
  · have h1 : 1 ≤ w ∧ w ≤ i + 1 := ⟨by omega, h2.2⟩
    simp [h1, h2]
  · by_cases h1 : 1 ≤ w ∧ w ≤ i + 1
    · have h2' : ¬ 2 ≤ w := fun hc => h2 ⟨hc, h1.2⟩
      simp [h1, h2']
    · simp [h1, h2]

theorem windowSlice_eq_sliceSpec (S : List ℝ) (w i : Nat)
    (hw : w ≤ i + 1) (hi : i < S.length) :
    windowSlice S w i = sliceSpec S w i := by
  apply List.ext_getElem
  · simp [windowSlice, sliceSpec]
    omega
  · intro j hj1 hj2
    have hjw : j < w := by
      have hj3 := hj1
      simp [windowSlice] at hj3
      omega
    have hb : i + 1 - w + j < S.length := by omega
    simp only [windowSlice, sliceSpec, List.getElem_take, List.getElem_drop,
      List.getElem_map, List.getElem_range]
    rw [List.getD_eq_getElem _ _ hb]

theorem length_windowSlice (S : List ℝ) (w i : Nat)
    (hw : w ≤ i + 1) (hi : i < S.length) :
    (windowSlice S w i).length = w := by
  simp [windowSlice]
  omega

theorem windowSlice_replicate (n : Nat) (c : ℝ) (w i : Nat)
    (hw : w ≤ i + 1) (hi : i < n) :
    windowSlice (List.replicate n c) w i = List.replicate w c := by
  unfold windowSlice
  rw [List.drop_replicate, List.take_replicate]
  congr 1
  omega

theorem mean_replicate (w : Nat) (hw : 1 ≤ w) (c : ℝ) :
    mean (List.replicate w c) = c := by
  have hw0 : (w : ℝ) ≠ 0 := Nat.cast_ne_zero.mpr (by omega)
  simp [mean, List.sum_replicate, nsmul_eq_mul]
  field_simp

theorem sampleVar_replicate (w : Nat) (hw : 1 ≤ w) (c : ℝ) :
    sampleVar (List.replicate w c) = 0 := by
  simp [sampleVar, mean_replicate w hw c, List.map_replicate, List.sum_replicate]

theorem sampleStd_replicate (w : Nat) (hw : 1 ≤ w) (c : ℝ) :
    sampleStd (List.replicate w c) = 0 := by
  simp [sampleStd, sampleVar_replicate w hw c, Real.sqrt_zero]

/- ### Helper lemmas about `calculate_anomalies` -/

theorem calc_anomalies_fst (data : List ℝ) (w : Nat) :
    (calculate_anomalies data w).1 = data.enum.filter fun p =>
      pbool (gtOpt p.2 ((upper_bound data w).getD p.1 none) ∨
        ltOpt p.2 ((lower_bound data w).getD p.1 none)) := rfl

theorem calc_anomalies_mean (data : List ℝ) (w : Nat) :
    (calculate_anomalies data w).2.1 = rollingMean data w := rfl

theorem calc_anomalies_upper (data : List ℝ) (w : Nat) :
    (calculate_anomalies data w).2.2.1 = upper_bound data w := rfl

theorem calc_anomalies_lower (data : List ℝ) (w : Nat) :
    (calculate_anomalies data w).2.2.2 = lower_bound data w := rfl

theorem mem_anomalies_iff (data : List ℝ) (w i : Nat) (t : ℝ) :
    (i, t) ∈ (calculate_anomalies data w).1 ↔
      data[i]? = some t ∧
        (gtOpt t ((upper_bound data w).getD i none) ∨
          ltOpt t ((lower_bound data w).getD i none)) := by
  rw [calc_anomalies_fst, List.mem_filter, List.mk_mem_enum_iff_getElem?]
  simp

/- ### Claim theorems -/

/-- C2 (amended): for every series `S` and positive window `W`, the rolling
statistics have the length of `S`; the rolling mean is missing exactly at
indices with `i + 1 < W` and elsewhere equals the arithmetic mean of
`S[i-W+1 .. i]`; the rolling standard deviation is missing exactly at
indices with `i + 1 < W` or `W = 1` (pandas `ddof = 1` yields NaN whenever
the window holds at most one sample), and for `W ≥ 2` it equals the
Bessel-corrected sample standard deviation of the same slice. -/
theorem c2_rolling_contract (S : List ℝ) (W : Nat) (hW : 0 < W) :
    (rollingMean S W).length = S.length ∧
    (rollingStd S W).length = S.length ∧
    (∀ i, i < S.length →
      ((rollingMean S W).getD i none = none ↔ i + 1 < W)) ∧
    (∀ i, i < S.length → W ≤ i + 1 →
      (rollingMean S W).getD i none = some (mean (sliceSpec S W i))) ∧
    (∀ i, i < S.length →
      ((rollingStd S W).getD i none = none ↔ (i + 1 < W ∨ W = 1))) ∧
    (∀ i, i < S.length → W ≤ i + 1 → 2 ≤ W →
      (rollingStd S W).getD i none = some (sampleStd (sliceSpec S W i))) := by
  refine ⟨length_rollingMean S W, length_rollingStd S W, ?_, ?_, ?_, ?_⟩
  · intro i hi
    rw [rollingMean_getD S W i hi]
    by_cases hc : 1 ≤ W ∧ W ≤ i + 1
    · rw [if_pos hc]
      constructor
      · intro hsome
        exact absurd hsome (Option.some_ne_none _)
      · intro hlt
        exact absurd hc (by omega)
    · rw [if_neg hc]
      simp only [true_iff]
      omega
  · intro i hi hWi
    rw [rollingMean_getD S W i hi, windowSlice_eq_sliceSpec S W i hWi hi]
    exact if_pos ⟨by omega, hWi⟩
  · intro i hi
    rw [rollingStd_getD S W i hi]
    by_cases hc : 2 ≤ W ∧ W ≤ i + 1
    · rw [if_pos hc]
      constructor
      · intro hsome
        exact absurd hsome (Option.some_ne_none _)
      · intro hor
        exact absurd hc (by omega)
    · rw [if_neg hc]
      simp only [true_iff]
      omega
  · intro i hi hWi h2
    rw [rollingStd_getD S W i hi, windowSlice_eq_sliceSpec S W i hWi hi]
    exact if_pos ⟨h2, hWi⟩

/-- C2 witness: the theorem instantiated on the series `[1, 2]` with
window 2 at index 1, where the rolling mean is defined. -/
theorem c2_witness :
    (0 : Nat) < 2 ∧
      (rollingMean [(1 : ℝ), 2] 2).getD 1 none =
        some (mean (sliceSpec [(1 : ℝ), 2] 2 1)) :=
  ⟨by norm_num,
   (c2_rolling_contract [(1 : ℝ), 2] 2 (by norm_num)).2.2.2.1 1 (by norm_num)
     (by norm_num)⟩

/-- C2 counterexample: with window `W = 1` (positive) and the series `[5]`,
index 0 satisfies `i + 1 ≥ W`, yet the rolling standard deviation is
missing there rather than equal to the sample standard deviation of the
slice, refuting the claim as stated. -/
theorem c2_counterexample :
    (rollingStd [(5 : ℝ)] 1).getD 0 none ≠
      some (sampleStd (sliceSpec [(5 : ℝ)] 1 0)) := by
  rw [rollingStd_getD _ _ _ (by norm_num)]
  simp

/-- C4: the parallel batch path (`executor.map` over the city groups,
zipped with the group keys) and the sequential batch path
(`groupby.apply.to_dict`) produce the identical association of city keys
to anomaly-analysis results, for every input. -/
theorem c4_parallel_eq_sequential (rows : List (String × ℝ)) :
    analyze_data_parallel rows = analyze_data_sequential rows := by
  unfold analyze_data_parallel analyze_data_sequential
  generalize groupByCity rows = groups
  induction groups with
  | nil => rfl
  | cons a l ih => simp_all

/-- C5: when a season has no observations in the city's data, the seasonal
table has no row for it, so the live classification fails with the
`KeyError` (a `LookupError`) of `stats.loc[...]`, and the caller's
`try/except` turns that failure into an error message instead of a crash. -/
theorem c5_missing_season (data : List (Season × ℝ)) (t : ℝ) (s : Season)
    (h : seasonTemps data s = []) :
    classifyLive data t s = Except.error "KeyError" ∧
    liveSection data t s = LiveOutcome.errorShown "KeyError" := by
  have hs : stats data s = none := by
    simp [stats, statsRaw, h]
  exact ⟨by simp [classifyLive, hs], by simp [liveSection, classifyLive, hs]⟩

/-- C5 witness: a profile built from winter-only data, asked about summer. -/
theorem c5_witness :
    classifyLive [(Season.winter, 1)] 0 Season.summer = Except.error "KeyError" ∧
    liveSection [(Season.winter, 1)] 0 Season.summer =
      LiveOutcome.errorShown "KeyError" :=
  c5_missing_season [(Season.winter, 1)] 0 Season.summer rfl

/-- C8: the anomaly detector is a pure function of its arguments — two
invocations on identical inputs give identical anomalies, rolling mean and
bounds; the embedding has no other state a result could depend on. -/
theorem c8_deterministic (d1 d2 : List ℝ) (w1 w2 : Nat)
    (hd : d1 = d2) (hw : w1 = w2) :
    calculate_anomalies d1 w1 = calculate_anomalies d2 w2 := by
  rw [hd, hw]

/-- C8 witness: two invocations on the same concrete input coincide. -/
theorem c8_witness :
    calculate_anomalies [(1 : ℝ)] 1 = calculate_anomalies [(1 : ℝ)] 1 :=
  c8_deterministic [(1 : ℝ)] [(1 : ℝ)] 1 1 rfl rfl

/-- C9 (amended): pandas `rolling` validation raises
`ValueError("window must be an integer 0 or greater")` for a negative
window, but a window of 0 is accepted and silently yields a result whose
every entry is undefined (NaN) — it does not raise. -/
theorem c9_window_contract (data : List ℝ) (window : Int) :
    (window < 0 →
      calculate_moving_average data window =
        Except.error "window must be an integer 0 or greater") ∧
    calculate_moving_average data 0 =
      Except.ok (List.replicate data.length none) := by
  constructor
  · intro h
    simp [calculate_moving_average, h]
  · have hz : rollingMean data 0 = List.replicate data.length none := by
      refine List.ext_getElem (by simp [length_rollingMean]) ?_
      intro n h1 h2
      have hn : n < data.length := by
        rwa [length_rollingMean] at h1
      rw [rollingMean_getElem data 0 n h1]
      simp
    simp [calculate_moving_average, hz]


/-- C9 witness: a negative window on a concrete series raises the error. -/
theorem c9_witness :
    calculate_moving_average [(2 : ℝ)] (-1) =
      Except.error "window must be an integer 0 or greater" :=
  (c9_window_contract [(2 : ℝ)] (-1)).1 (by norm_num)

/-- C9 counterexample: on the series `[1]`, a window of 0 (which is `≤ 0`)
does not raise any error, refuting the claim that every non-positive
window fails fast. -/
theorem c9_counterexample :
    ¬ ∃ e, calculate_moving_average [(1 : ℝ)] 0 = Except.error e := by
  simp [calculate_moving_average]

/-- C3: the bound series are aligned index-for-index with the input; a row
`(i, t)` of the input is in the anomalous subset iff the rolling mean `m`
and rolling standard deviation `s` are both defined at `i` and
`t > m + 2s` or `t < m - 2s`; and a row whose upper bound is undefined is
never in the anomalous subset. -/
theorem c3_anomaly_rule (data : List ℝ) (w : Nat) :
    (calculate_anomalies data w).2.2.1.length = data.length ∧
    (calculate_anomalies data w).2.2.2.length = data.length ∧
    (∀ i t, (i, t) ∈ (calculate_anomalies data w).1 ↔
      data[i]? = some t ∧
        ∃ m s, (calculate_anomalies data w).2.1.getD i none = some m ∧
          (rollingStd data w).getD i none = some s ∧
          (t > m + 2 * s ∨ t < m - 2 * s)) ∧
    (∀ i t, (calculate_anomalies data w).2.2.1.getD i none = none →
      (i, t) ∉ (calculate_anomalies data w).1) := by
  refine ⟨by rw [calc_anomalies_upper]; exact length_upper_bound data w,
    by rw [calc_anomalies_lower]; exact length_lower_bound data w, ?_, ?_⟩
  · intro i t
    rw [mem_anomalies_iff, calc_anomalies_mean]
    constructor
    · rintro ⟨hget, hcond⟩
      obtain ⟨hi, -⟩ := List.getElem?_eq_some.mp hget
      refine ⟨hget, ?_⟩
      rw [upper_bound_getD data w i hi, lower_bound_getD data w i hi] at hcond
      by_cases hc : 2 ≤ w ∧ w ≤ i + 1
      · rw [if_pos hc, if_pos hc] at hcond
        refine ⟨mean (windowSlice data w i), sampleStd (windowSlice data w i),
          ?_, ?_, ?_⟩
        · rw [rollingMean_getD data w i hi]
          exact if_pos ⟨by omega, hc.2⟩
        · rw [rollingStd_getD data w i hi]
          exact if_pos hc
        · rcases hcond with h | h
          · exact Or.inl h
          · exact Or.inr h
      · rw [if_neg hc, if_neg hc] at hcond
        rcases hcond with h | h
        · exact h.elim
        · exact h.elim
    · rintro ⟨hget, m, s, hm, hs, hcond⟩
      obtain ⟨hi, -⟩ := List.getElem?_eq_some.mp hget
      refine ⟨hget, ?_⟩
      rw [rollingStd_getD data w i hi] at hs
      by_cases hc : 2 ≤ w ∧ w ≤ i + 1
      · rw [if_pos hc] at hs
        rw [rollingMean_getD data w i hi, if_pos ⟨by omega, hc.2⟩] at hm
        have hm2 : m = mean (windowSlice data w i) := by
          exact (Option.some_injective _ hm).symm
        have hs2 : s = sampleStd (windowSlice data w i) := by
          exact (Option.some_injective _ hs).symm
        rw [upper_bound_getD data w i hi, lower_bound_getD data w i hi,
          if_pos hc, if_pos hc]
        subst hm2 hs2
        exact hcond
      · rw [if_neg hc] at hs
        exact absurd hs (by simp)
  · intro i t hub hmem
    rw [mem_anomalies_iff] at hmem
    obtain ⟨hget, hcond⟩ := hmem
    obtain ⟨hi, -⟩ := List.getElem?_eq_some.mp hget
    rw [calc_anomalies_upper, upper_bound_getD data w i hi] at hub
    by_cases hc : 2 ≤ w ∧ w ≤ i + 1
    · rw [if_pos hc] at hub
      exact absurd hub (by simp)
    · rw [upper_bound_getD data w i hi, if_neg hc,
        lower_bound_getD data w i hi, if_neg hc] at hcond
      rcases hcond with h | h
      · exact h.elim
      · exact h.elim

/-- C3 witness: on the one-point series `[5]` with window 0, index 0 has an
undefined upper bound, so the theorem yields that the row is not anomalous. -/
theorem c3_witness : (0, (5 : ℝ)) ∉ (calculate_anomalies [(5 : ℝ)] 0).1 :=
  (c3_anomaly_rule [(5 : ℝ)] 0).2.2.2 0 5 (by
    rw [calc_anomalies_upper, upper_bound_getD [(5 : ℝ)] 0 0 (by norm_num)]
    norm_num)

/-- C7: on a constant series every defined rolling standard deviation is 0,
every defined upper or lower bound equals the constant, and the anomalous
subset is empty — for every window. -/
theorem c7_constant_series (n : Nat) (c : ℝ) (w : Nat) :
    (∀ i x, (rollingStd (List.replicate n c) w).getD i none = some x → x = 0) ∧
    (∀ i x, (calculate_anomalies (List.replicate n c) w).2.2.1.getD i none =
      some x → x = c) ∧
    (∀ i x, (calculate_anomalies (List.replicate n c) w).2.2.2.getD i none =
      some x → x = c) ∧
    (calculate_anomalies (List.replicate n c) w).1 = [] := by
  have hlen : (List.replicate n c).length = n := List.length_replicate n c
  refine ⟨?_, ?_, ?_, ?_⟩
  · intro i x hx
    by_cases hi : i < n
    · rw [rollingStd_getD _ _ _ (by rwa [hlen])] at hx
      by_cases hc : 2 ≤ w ∧ w ≤ i + 1
      · rw [if_pos hc, windowSlice_replicate n c w i hc.2 hi,
          sampleStd_replicate w (by omega) c] at hx
        exact (Option.some_injective _ hx).symm
      · rw [if_neg hc] at hx
        exact absurd hx (by simp)
    · rw [List.getD_eq_default _ _ (by rw [length_rollingStd, hlen]; omega)] at hx
      exact absurd hx (by simp)
  · intro i x hx
    rw [calc_anomalies_upper] at hx
    by_cases hi : i < n
    · rw [upper_bound_getD _ _ _ (by rwa [hlen])] at hx
      by_cases hc : 2 ≤ w ∧ w ≤ i + 1
      · rw [if_pos hc, windowSlice_replicate n c w i hc.2 hi,
          sampleStd_replicate w (by omega) c,
          mean_replicate w (by omega) c] at hx
        have := (Option.some_injective _ hx).symm
        rw [this]
        ring
      · rw [if_neg hc] at hx
        exact absurd hx (by simp)
    · rw [List.getD_eq_default _ _ (by rw [length_upper_bound, hlen]; omega)] at hx
      exact absurd hx (by simp)
  · intro i x hx
    rw [calc_anomalies_lower] at hx
    by_cases hi : i < n
    · rw [lower_bound_getD _ _ _ (by rwa [hlen])] at hx
      by_cases hc : 2 ≤ w ∧ w ≤ i + 1
      · rw [if_pos hc, windowSlice_replicate n c w i hc.2 hi,
          sampleStd_replicate w (by omega) c,
          mean_replicate w (by omega) c] at hx
        have := (Option.some_injective _ hx).symm
        rw [this]
        ring
      · rw [if_neg hc] at hx
        exact absurd hx (by simp)
    · rw [List.getD_eq_default _ _ (by rw [length_lower_bound, hlen]; omega)] at hx
      exact absurd hx (by simp)
  · rw [calc_anomalies_fst, List.filter_eq_nil_iff]
    rintro ⟨i, t⟩ hmem
    rw [List.mk_mem_enum_iff_getElem?] at hmem
    obtain ⟨hi, ht⟩ := List.getElem?_eq_some.mp hmem
    have hi' : i < n := by rwa [hlen] at hi
    have htc : t = c := by
      rw [← ht, List.getElem_replicate]
    rw [htc]
    rw [Bool.not_eq_true, ← Bool.not_eq_true, pbool_iff]
    rw [upper_bound_getD _ _ _ hi, lower_bound_getD _ _ _ hi]
    by_cases hc : 2 ≤ w ∧ w ≤ i + 1
    · rw [if_pos hc, if_pos hc, windowSlice_replicate n c w i hc.2 hi',
        sampleStd_replicate w (by omega) c, mean_replicate w (by omega) c]
      rintro (h | h)
      · simp only [gtOpt] at h
        linarith
      · simp only [ltOpt] at h
        linarith
    · rw [if_neg hc, if_neg hc]
      rintro (h | h)
      · simp only [gtOpt] at h
      · simp only [ltOpt] at h

/-- C7 witness: on the constant series `[5, 5, 5]` with window 2, the
anomalous subset is empty, and the theorem maps the concrete defined upper
bound `some 5` back to the constant. -/
theorem c7_witness :
    (calculate_anomalies (List.replicate 3 (5 : ℝ)) 2).1 = [] ∧
    (calculate_anomalies (List.replicate 3 (5 : ℝ)) 2).2.2.1.getD 2 none =
      some 5 ∧ (5 : ℝ) = 5 := by
  have h5 : (calculate_anomalies (List.replicate 3 (5 : ℝ)) 2).2.2.1.getD 2 none =
      some 5 := by
    rw [calc_anomalies_upper, upper_bound_getD _ _ _ (by simp)]
    rw [if_pos ⟨by norm_num, by norm_num⟩]
    rw [windowSlice_replicate 3 5 2 2 (by norm_num) (by norm_num)]
    rw [mean_replicate 2 (by norm_num) 5, sampleStd_replicate 2 (by norm_num) 5]
    norm_num
  exact ⟨(c7_constant_series 3 5 2).2.2.2, h5, (c7_constant_series 3 5 2).2.1 2 5 h5⟩

/- ### Helper lemmas for the 35-point example series -/

theorem exampleSeries_length : exampleSeries.length = 35 := by
  simp [exampleSeries]

theorem exampleSeries_getElem?_lt (i : Nat) (h : i < 34) :
    exampleSeries[i]? = some 10 := by
  unfold exampleSeries
  rw [List.getElem?_append, if_pos (by simp; omega)]
  rw [List.getElem?_replicate, if_pos h]

theorem exampleSeries_getElem?_34 : exampleSeries[34]? = some 50 := by
  unfold exampleSeries
  rw [List.getElem?_append_right (by simp)]
  simp

theorem windowSlice_example_mid (i : Nat) (h1 : 29 ≤ i) (h2 : i ≤ 33) :
    windowSlice exampleSeries 30 i = List.replicate 30 10 := by
  have hi : i < exampleSeries.length := by rw [exampleSeries_length]; omega
  apply List.ext_getElem
  · rw [length_windowSlice exampleSeries 30 i (by omega) hi, List.length_replicate]
  · intro j hj1 hj2
    have hj : j < 30 := by
      rwa [length_windowSlice exampleSeries 30 i (by omega) hi] at hj1
    simp only [windowSlice, List.getElem_take, List.getElem_drop,
      List.getElem_replicate]
    unfold exampleSeries
    rw [List.getElem_append_left (by simp; omega)]
    rw [List.getElem_replicate]

theorem windowSlice_example_34 :
    windowSlice exampleSeries 30 34 = List.replicate 29 10 ++ [50] := by
  have hi : (34 : Nat) < exampleSeries.length := by rw [exampleSeries_length]; omega
  apply List.ext_getElem
  · rw [length_windowSlice exampleSeries 30 34 (by omega) hi]
    simp
  · intro j hj1 hj2
    have hj : j < 30 := by
      rwa [length_windowSlice exampleSeries 30 34 (by omega) hi] at hj1
    simp only [windowSlice, List.getElem_take, List.getElem_drop]
    unfold exampleSeries
    by_cases hj29 : j < 29
    · rw [List.getElem_append_left (by simp; omega),
        List.getElem_replicate,
        List.getElem_append_left (show j < (List.replicate 29 (10 : ℝ)).length by
          simp; omega), List.getElem_replicate]
    · have hj' : j = 29 := by omega
      subst hj'
      rw [List.getElem_append_right (show (List.replicate 34 (10 : ℝ)).length ≤
          34 + 1 - 30 + 29 by simp),
        List.getElem_append_right (show (List.replicate 29 (10 : ℝ)).length ≤ 29 by
          simp)]
      simp

theorem mean_slice34 : mean (List.replicate 29 (10 : ℝ) ++ [50]) = 34 / 3 := by
  simp [mean, List.sum_append, List.sum_replicate, nsmul_eq_mul]
  norm_num

theorem var_slice34 : sampleVar (List.replicate 29 (10 : ℝ) ++ [50]) = 480 / 9 := by
  rw [sampleVar, mean_slice34]
  simp [List.map_append, List.map_replicate, List.sum_append, List.sum_replicate,
    nsmul_eq_mul]
  norm_num

theorem std_slice34_lt :
    2 * sampleStd (List.replicate 29 (10 : ℝ) ++ [50]) < 116 / 3 := by
  rw [sampleStd, var_slice34]
  have h : Real.sqrt (480 / 9) < 58 / 3 := by
    rw [Real.sqrt_lt' (by norm_num)]
    norm_num
  linarith

/-- C6: on the 35-point series with 34 points at 10.0 and a final 50.0,
window 30, the anomalous subset contains exactly the row `(34, 50.0)`, and
every index up to 28 has undefined upper and lower bounds (so such rows
are excluded from consideration). -/
theorem c6_spike :
    (∀ i, i ≤ 28 →
      (calculate_anomalies exampleSeries 30).2.2.1.getD i none = none ∧
      (calculate_anomalies exampleSeries 30).2.2.2.getD i none = none) ∧
    (∀ i t, (i, t) ∈ (calculate_anomalies exampleSeries 30).1 ↔
      i = 34 ∧ t = 50) := by
  constructor
  · intro i hile
    have hi : i < exampleSeries.length := by rw [exampleSeries_length]; omega
    rw [calc_anomalies_upper, calc_anomalies_lower,
      upper_bound_getD _ _ _ hi, lower_bound_getD _ _ _ hi,
      if_neg (by omega), if_neg (by omega)]
    exact ⟨rfl, rfl⟩
  · intro i t
    rw [mem_anomalies_iff]
    constructor
    · rintro ⟨hget, hcond⟩
      obtain ⟨hi, -⟩ := List.getElem?_eq_some.mp hget
      have hi35 : i < 35 := by rwa [exampleSeries_length] at hi
      rw [upper_bound_getD _ _ _ hi, lower_bound_getD _ _ _ hi] at hcond
      by_cases hc : 2 ≤ 30 ∧ 30 ≤ i + 1
      · rw [if_pos hc, if_pos hc] at hcond
        by_cases hi34 : i = 34
        · subst hi34
          refine ⟨rfl, ?_⟩
          have h2 := exampleSeries_getElem?_34
          rw [hget] at h2
          exact Option.some_injective _ h2
        · exfalso
          have h29 : 29 ≤ i := by omega
          have h33 : i ≤ 33 := by omega
          rw [windowSlice_example_mid i h29 h33,
            mean_replicate 30 (by norm_num) 10,
            sampleStd_replicate 30 (by norm_num) 10] at hcond
          have ht10 : t = 10 := by
            have h2 := exampleSeries_getElem?_lt i (by omega)
            rw [hget] at h2
            exact Option.some_injective _ h2
          subst ht10
          rcases hcond with h | h
          · simp only [gtOpt] at h
            linarith
          · simp only [ltOpt] at h
            linarith
      · rw [if_neg hc, if_neg hc] at hcond
        rcases hcond with h | h
        · exact h.elim
        · exact h.elim
    · rintro ⟨hi34, ht50⟩
      subst hi34
      subst ht50
      refine ⟨exampleSeries_getElem?_34, ?_⟩
      have hi : (34 : Nat) < exampleSeries.length := by
        rw [exampleSeries_length]; omega
      rw [upper_bound_getD _ _ _ hi, if_pos ⟨by norm_num, by norm_num⟩,
        windowSlice_example_34]
      left
      simp only [gtOpt]
      rw [mean_slice34]
      have h := std_slice34_lt
      linarith

/-- C6 witness: the spike row `(34, 50)` is in the anomalous subset, and
index 0 (≤ 28) has an undefined upper bound. -/
theorem c6_witness :
    (34, (50 : ℝ)) ∈ (calculate_anomalies exampleSeries 30).1 ∧
    (calculate_anomalies exampleSeries 30).2.2.1.getD 0 none = none :=
  ⟨(c6_spike.2 34 50).mpr ⟨rfl, rfl⟩, (c6_spike.1 0 (by norm_num)).1⟩

/- ### Helper lemmas for the rounding counterexample data -/

theorem c1_seasonTemps :
    seasonTemps c1Data Season.winter =
      [-(4 / 1000), -(4 / 1000), 0, (4 / 1000 : ℝ), 4 / 1000] := rfl

theorem c1_mean :
    mean [-(4 / 1000), -(4 / 1000), 0, (4 / 1000 : ℝ), 4 / 1000] = 0 := by
  simp [mean]

theorem c1_var :
    sampleVar [-(4 / 1000), -(4 / 1000), 0, (4 / 1000 : ℝ), 4 / 1000] =
      16 / 1000000 := by
  rw [sampleVar, c1_mean]
  simp only [List.map_cons, List.map_nil, List.sum_cons, List.sum_nil,
    List.length_cons, List.length_nil]
  norm_num

theorem c1_std :
    sampleStd [-(4 / 1000), -(4 / 1000), 0, (4 / 1000 : ℝ), 4 / 1000] =
      4 / 1000 := by
  rw [sampleStd, c1_var, show (16 / 1000000 : ℝ) = (4 / 1000) ^ 2 by norm_num]
  exact Real.sqrt_sq (by norm_num)

theorem round2_zero : round2 0 = 0 := by
  unfold round2 roundHalfEven
  norm_num

theorem floor_c1 : ⌊(4 / 1000 : ℝ) * 100⌋ = 0 := by
  rw [Int.floor_eq_zero_iff, Set.mem_Ico]
  constructor <;> norm_num

theorem round2_c1 : round2 (4 / 1000) = 0 := by
  unfold round2 roundHalfEven
  rw [floor_c1]
  norm_num

/-- C1 (code behaviour at the failing input): the live verdict at
app.py lines 291-293 is computed from the `.round(2)` display table of
line 137, not from the unrounded statistics.  On `c1Data` (winter mean 0,
winter sample standard deviation exactly 0.004, which rounds to 0.00) a
reading of 0.005 °C is flagged anomalous by the code's rounded statistics,
while the unrounded ±2σ rule (threshold 0.008) classifies it as normal —
so the rounded and raw verdicts differ. -/
theorem c1_rounding_flips_verdict :
    ∃ raw disp : SeasonStats,
      statsRaw c1Data Season.winter = some raw ∧
      stats c1Data Season.winter = some disp ∧
      raw.mean = 0 ∧ raw.std = 4 / 1000 ∧ disp.mean = 0 ∧ disp.std = 0 ∧
      is_anomaly disp (5 / 1000) ∧ ¬ is_anomaly raw (5 / 1000) := by
  have hT := c1_seasonTemps
  have hraw_mean : (aggStats (seasonTemps c1Data Season.winter)).mean = 0 := by
    rw [hT]
    simp [aggStats, c1_mean]
  have hraw_std : (aggStats (seasonTemps c1Data Season.winter)).std = 4 / 1000 := by
    rw [hT]
    simp [aggStats, c1_std]
  have hdisp_mean :
      (roundStats (aggStats (seasonTemps c1Data Season.winter))).mean = 0 := by
    simp [roundStats, hraw_mean, round2_zero]
  have hdisp_std :
      (roundStats (aggStats (seasonTemps c1Data Season.winter))).std = 0 := by
    simp [roundStats, hraw_std, round2_c1]
  refine ⟨aggStats (seasonTemps c1Data Season.winter),
    roundStats (aggStats (seasonTemps c1Data Season.winter)),
    ?_, ?_, hraw_mean, hraw_std, hdisp_mean, hdisp_std, ?_, ?_⟩
  · simp [statsRaw, hT]
  · simp [stats, statsRaw, hT]
  · unfold is_anomaly
    rw [hdisp_mean, hdisp_std]
    left
    norm_num
  · unfold is_anomaly
    rw [hraw_mean, hraw_std]
    rintro (h | h) <;> norm_num at h

end TempApp

end
